import Mathlib

/-!
Shallow embedding of the permission/validation logic of the meeting,
milestone and checkpoint endpoints of the CNPM-friday backend
(src/backend/app/api/v1/meetings.py, src/backend/app/api/v1/milestones.py,
src/backend/app/schemas/meeting.py, src/backend/app/schemas/milestone.py).

Modelling conventions:
- Timestamps (datetime) are Int values (seconds since epoch, all UTC);
  `timedelta(minutes=15)` is the integer 900.  Timezone-awareness juggling
  in the source (naive treated as UTC) disappears because every instant is
  already a single Int.
- UUID user identifiers and integer primary keys are Nat.
- Float milestone weights are Rat (they are only stored and copied, never
  computed with, so the numeric representation is irrelevant).
- The database session is an explicit record of row lists.  An endpoint is
  a pure function from the database (plus the current user, the current
  time, the freshly generated primary key for an insert, and the random
  bytes an allocation would draw) to the pair of the database after the
  request and the HTTP outcome.  A raised HTTPException aborts the request
  before the commit point, so the error branches return the input database
  unchanged (single-transaction rollback semantics, delegated to the
  storage engine per the spec).
- Pydantic update schemas with `exclude_unset` are modelled with Option
  fields: `none` means the field was absent from the request body.
  (Supplying an explicit JSON null for `due_date` on milestone update
  would crash the source endpoint with AttributeError before any commit;
  that path is outside every claim and is not modelled.)
-/

structure User where
  user_id : Nat
  role_id : Nat
deriving DecidableEq, Repr

structure Team where
  team_id : Nat
  class_id : Nat
deriving DecidableEq, Repr

structure TeamMember where
  team_id : Nat
  user_id : Nat
  role : String
deriving DecidableEq, Repr

structure Meeting where
  meeting_id : Nat
  team_id : Nat
  title : String
  start_time : Option Int
  end_time : Option Int
  link_url : Option String
  organizer_id : Nat
  created_at : Int
deriving DecidableEq, Repr

structure Notification where
  user_id : Nat
  title : String
  message : String
  notification_type : String
  related_entity_type : String
  related_entity_id : Nat
deriving DecidableEq, Repr

structure AcademicClass where
  class_id : Nat
  lecturer_id : Nat
deriving DecidableEq, Repr

/-- Milestone row.  The ORM model file (app/models/all_models.py) is not part
of the sources; its columns are modelled from the spec data model section:
identifier, owning class identifier, title, optional description, due date,
weight (fraction of the final grade), creator identifier. -/
structure Milestone where
  milestone_id : Nat
  class_id : Nat
  title : String
  description : Option String
  due_date : Int
  weight : Rat
  created_by : Nat
deriving DecidableEq, Repr

structure Checkpoint where
  checkpoint_id : Nat
  milestone_id : Nat
  team_id : Nat
  title : String
  status : String
deriving DecidableEq, Repr

structure Db where
  teams : List Team
  teamMembers : List TeamMember
  meetings : List Meeting
  notifications : List Notification
  classes : List AcademicClass
  milestones : List Milestone
  checkpoints : List Checkpoint
deriving DecidableEq, Repr

/-- HTTPException: status code plus detail message. -/
structure HttpError where
  status : Nat
  detail : String
deriving DecidableEq, Repr

/-- Python truthiness of an optional string column: None and the empty
string are falsy. -/
def strTruthy : Option String → Bool
  | none => false
  | some s => !(s == "")

/-- Python `a or b` for an optional string `a` and a string `b`. -/
def pyOrStr (a : Option String) (b : String) : String :=
  match a with
  | none => b
  | some s => if s == "" then b else s

/-- Python truthiness of an optional integer query parameter: None and 0
are falsy. -/
def natOptTruthy : Option Nat → Bool
  | none => false
  | some c => c != 0

/-- The 64 characters of the URL-safe base64 alphabet. -/
def b64urlAlphabet : List Char :=
  "ABCDEFGHIJKLMNOPQRSTUVWXYZabcdefghijklmnopqrstuvwxyz0123456789-_".toList

def b64urlChar (n : Nat) : Char :=
  b64urlAlphabet.getD (n % 64) 'A'

/-- URL-safe base64 of a byte list, padding stripped — the encoding
performed by `secrets.token_urlsafe` on the bytes it draws. -/
def b64urlEncode : List Nat → List Char
  | [] => []
  | [a] => [b64urlChar (a / 4), b64urlChar (a % 4 * 16)]
  | [a, b] =>
      [b64urlChar (a / 4), b64urlChar (a % 4 * 16 + b / 16), b64urlChar (b % 16 * 4)]
  | a :: b :: c :: rest =>
      b64urlChar (a / 4) :: b64urlChar (a % 4 * 16 + b / 16) ::
      b64urlChar (b % 16 * 4 + c / 64) :: b64urlChar (c % 64) :: b64urlEncode rest

/-- `gen_peer_room_id`: `secrets.token_urlsafe(10)` applied to the 10 random
bytes `rand` the call would draw. -/
def gen_peer_room_id (rand : List Nat) : String :=
  String.mk (b64urlEncode rand)

/-- `require_team_exists` from meetings.py. -/
def require_team_exists (db : Db) (team_id : Nat) : Except HttpError Team :=
  match db.teams.find? (fun t => t.team_id == team_id) with
  | some t => .ok t
  | none => .error ⟨404, "Team not found"⟩

/-- `require_team_member` from meetings.py. -/
def require_team_member (db : Db) (team_id : Nat) (user_id : Nat) :
    Except HttpError TeamMember :=
  match db.teamMembers.find?
      (fun m => m.team_id == team_id && m.user_id == user_id) with
  | some tm => .ok tm
  | none => .error ⟨403, "You are not a member of this team"⟩

structure MeetingCreate where
  team_id : Nat
  title : String
  start_time : Int
  end_time : Int
  meeting_link : Option String
deriving DecidableEq, Repr

structure MeetingUpdate where
  title : Option String
  start_time : Option Int
  end_time : Option Int
  meeting_link : Option String
deriving DecidableEq, Repr

structure MeetingResponse where
  meeting_id : Nat
  team_id : Nat
  title : String
  start_time : Option Int
  end_time : Option Int
  meeting_link : Option String
  created_by : Nat
  created_at : Int
deriving DecidableEq, Repr

/-- `to_response` from meetings.py. -/
def to_response (m : Meeting) : MeetingResponse :=
  { meeting_id := m.meeting_id
    team_id := m.team_id
    title := m.title
    start_time := m.start_time
    end_time := m.end_time
    meeting_link := m.link_url
    created_by := m.organizer_id
    created_at := m.created_at }

/-- POST /meetings (create_meeting).  `now` is the value of `now_utc()`,
`rand` the bytes `gen_peer_room_id` would draw, `newId` the primary key the
database assigns at flush time. -/
def create_meeting (db : Db) (u : User) (p : MeetingCreate) (now : Int)
    (rand : List Nat) (newId : Nat) : Db × Except HttpError MeetingResponse :=
  match require_team_exists db p.team_id with
  | .error e => (db, .error e)
  | .ok _ =>
  match require_team_member db p.team_id u.user_id with
  | .error e => (db, .error e)
  | .ok _ =>
    let link_url := pyOrStr p.meeting_link (gen_peer_room_id rand)
    let meeting : Meeting :=
      { meeting_id := newId
        team_id := p.team_id
        title := p.title
        start_time := some p.start_time
        end_time := some p.end_time
        link_url := some link_url
        organizer_id := u.user_id
        created_at := now }
    let remind_at := p.start_time - 15 * 60
    let notifs : List Notification :=
      if remind_at > now then
        (db.teamMembers.filter (fun m => m.team_id == p.team_id)).map
          (fun m =>
            { user_id := m.user_id
              title := "Meeting reminder"
              message := "Meeting " ++ p.title ++ " starts at " ++ toString p.start_time
              notification_type := "info"
              related_entity_type := "meeting"
              related_entity_id := newId })
      else []
    ({ db with
        meetings := db.meetings ++ [meeting]
        notifications := db.notifications ++ notifs },
     .ok (to_response meeting))

/-- Application of the four `if payload.X is not None` assignments of
update_meeting to the in-memory row. -/
def applyMeetingUpdate (m : Meeting) (p : MeetingUpdate) : Meeting :=
  let m1 := match p.title with
    | some t => { m with title := t }
    | none => m
  let m2 := match p.start_time with
    | some s => { m1 with start_time := some s }
    | none => m1
  let m3 := match p.end_time with
    | some e => { m2 with end_time := some e }
    | none => m2
  match p.meeting_link with
  | some l => { m3 with link_url := some l }
  | none => m3

/-- Commit of a mutated meeting row: the row with this id is replaced. -/
def commitMeeting (db : Db) (mid : Nat) (m : Meeting) : Db :=
  { db with meetings := db.meetings.map (fun x => if x.meeting_id == mid then m else x) }

/-- PUT /meetings/id (update_meeting). -/
def update_meeting (db : Db) (u : User) (mid : Nat) (p : MeetingUpdate) :
    Db × Except HttpError MeetingResponse :=
  match db.meetings.find? (fun x => x.meeting_id == mid) with
  | none => (db, .error ⟨404, "Meeting not found"⟩)
  | some meeting =>
  match require_team_member db meeting.team_id u.user_id with
  | .error e => (db, .error e)
  | .ok tm =>
    let is_privileged := u.role_id == 1 || u.role_id == 4
    let is_leader := tm.role == "LEADER"
    let is_organizer := meeting.organizer_id == u.user_id
    if !(is_privileged || is_leader || is_organizer) then
      (db, .error ⟨403, "Not allowed to update this meeting"⟩)
    else
      let m2 := applyMeetingUpdate meeting p
      match m2.start_time, m2.end_time with
      | some s, some e =>
        if e ≤ s then
          (db, .error ⟨400, "end_time must be greater than start_time"⟩)
        else
          (commitMeeting db mid m2, .ok (to_response m2))
      | some _, none => (commitMeeting db mid m2, .ok (to_response m2))
      | none, _ => (commitMeeting db mid m2, .ok (to_response m2))

structure CancelResponse where
  message : String
  meeting_id : Nat
deriving DecidableEq, Repr

/-- DELETE /meetings/id (cancel_meeting). -/
def cancel_meeting (db : Db) (u : User) (mid : Nat) :
    Db × Except HttpError CancelResponse :=
  match db.meetings.find? (fun x => x.meeting_id == mid) with
  | none => (db, .error ⟨404, "Meeting not found"⟩)
  | some meeting =>
  match require_team_member db meeting.team_id u.user_id with
  | .error e => (db, .error e)
  | .ok tm =>
    let is_privileged := u.role_id == 1 || u.role_id == 4
    let is_leader := tm.role == "LEADER"
    let is_organizer := meeting.organizer_id == u.user_id
    if !(is_privileged || is_leader || is_organizer) then
      (db, .error ⟨403, "Not allowed to cancel this meeting"⟩)
    else
      ({ db with meetings := db.meetings.filter (fun x => !(x.meeting_id == mid)) },
       .ok ⟨"Meeting cancelled", mid⟩)

structure JoinResponse where
  meeting_id : Nat
  team_id : Nat
  peer_room_id : Option String
deriving DecidableEq, Repr

/-- POST /meetings/id/join (join_meeting).  `rand` is the byte draw of the
lazy allocation branch. -/
def join_meeting (db : Db) (u : User) (mid : Nat) (rand : List Nat) :
    Db × Except HttpError JoinResponse :=
  match db.meetings.find? (fun x => x.meeting_id == mid) with
  | none => (db, .error ⟨404, "Meeting not found"⟩)
  | some meeting =>
  match require_team_member db meeting.team_id u.user_id with
  | .error e => (db, .error e)
  | .ok _ =>
    if !(strTruthy meeting.link_url) then
      let m2 := { meeting with link_url := some (gen_peer_room_id rand) }
      (commitMeeting db mid m2, .ok ⟨mid, m2.team_id, m2.link_url⟩)
    else
      (db, .ok ⟨mid, meeting.team_id, meeting.link_url⟩)

structure MilestoneCreate where
  class_id : Nat
  title : String
  description : Option String
  due_date : Int
  weight : Rat
deriving DecidableEq, Repr

structure MilestoneUpdate where
  title : Option String
  description : Option (Option String)
  due_date : Option Int
  weight : Option Rat
deriving DecidableEq, Repr

/-- Modelled from the spec: the Milestone ORM model is not under src/, so
the column default that applies when create_milestone constructs the row
without a weight value is taken from the spec sentence that the weight
defaults to 1.0 when not supplied. -/
def milestoneWeightDefault : Rat := 1

/-- POST /milestones (create_milestone).  `now` is the value of
`datetime.now(...)` at the due-date check, `newId` the key assigned on
insert.  The source constructs the Milestone row from class_id, title,
description, due_date and created_by only: the payload weight is not
passed, so the stored weight is the model default. -/
def create_milestone (db : Db) (u : User) (p : MilestoneCreate) (now : Int)
    (newId : Nat) : Db × Except HttpError Milestone :=
  match db.classes.find? (fun c => c.class_id == p.class_id) with
  | none => (db, .error ⟨404, "Class not found"⟩)
  | some academic_class =>
    if academic_class.lecturer_id != u.user_id then
      (db, .error ⟨403, "Only the class lecturer can create milestones"⟩)
    else if p.due_date ≤ now then
      (db, .error ⟨400, "Due date must be in the future"⟩)
    else
      let new_milestone : Milestone :=
        { milestone_id := newId
          class_id := p.class_id
          title := p.title
          description := p.description
          due_date := p.due_date
          weight := milestoneWeightDefault
          created_by := u.user_id }
      ({ db with milestones := db.milestones ++ [new_milestone] },
       .ok new_milestone)

structure MilestoneListResponse where
  milestone_id : Nat
  class_id : Nat
  title : String
  due_date : Int
  created_by : Nat
  checkpoint_count : Nat
deriving DecidableEq, Repr

/-- Insertion of one element into a list sorted by `le`. -/
def insertLe (le : α → α → Bool) (x : α) : List α → List α
  | [] => [x]
  | y :: ys => if le x y then x :: y :: ys else y :: insertLe le x ys

/-- Insertion sort by `le` — the ORDER BY of a query. -/
def sortLe (le : α → α → Bool) : List α → List α
  | [] => []
  | x :: xs => insertLe le x (sortLe le xs)

/-- GET /milestones (list_milestones): optional class filter (Python
truthiness: a class_id of 0 is falsy and applies no filter), ORDER BY
due_date, OFFSET skip, LIMIT limit, then per-milestone checkpoint count. -/
def list_milestones (db : Db) (class_id : Option Nat) (skip limit : Nat) :
    List MilestoneListResponse :=
  let base := db.milestones
  let filtered :=
    if natOptTruthy class_id then
      base.filter (fun m => m.class_id == class_id.getD 0)
    else base
  let page := ((sortLe (fun a b => a.due_date ≤ b.due_date) filtered).drop skip).take limit
  page.map (fun m =>
    { milestone_id := m.milestone_id
      class_id := m.class_id
      title := m.title
      due_date := m.due_date
      created_by := m.created_by
      checkpoint_count :=
        (db.checkpoints.filter (fun c => c.milestone_id == m.milestone_id)).length })

/-- Application of the `setattr` loop of update_milestone over
`model_dump(exclude_unset=True)`. -/
def applyMilestoneUpdate (m : Milestone) (p : MilestoneUpdate) : Milestone :=
  let m1 := match p.title with
    | some t => { m with title := t }
    | none => m
  let m2 := match p.description with
    | some d => { m1 with description := d }
    | none => m1
  let m3 := match p.due_date with
    | some d => { m2 with due_date := d }
    | none => m2
  match p.weight with
  | some w => { m3 with weight := w }
  | none => m3

/-- Commit of a mutated milestone row. -/
def commitMilestone (db : Db) (mid : Nat) (m : Milestone) : Db :=
  { db with milestones := db.milestones.map (fun x => if x.milestone_id == mid then m else x) }

/-- PUT /milestones/id (update_milestone). -/
def update_milestone (db : Db) (u : User) (mid : Nat) (p : MilestoneUpdate)
    (now : Int) : Db × Except HttpError Milestone :=
  match db.milestones.find? (fun x => x.milestone_id == mid) with
  | none => (db, .error ⟨404, "Milestone not found"⟩)
  | some milestone =>
    if milestone.created_by != u.user_id then
      (db, .error ⟨403, "Only the creating lecturer can update this milestone"⟩)
    else
      match p.due_date with
      | some d =>
        if d ≤ now then
          (db, .error ⟨400, "Due date must be in the future"⟩)
        else
          let m2 := applyMilestoneUpdate milestone p
          (commitMilestone db mid m2, .ok m2)
      | none =>
        let m2 := applyMilestoneUpdate milestone p
        (commitMilestone db mid m2, .ok m2)

/-- DELETE /milestones/id (delete_milestone).  The cascade to the owned
checkpoints is modelled from the spec (the FK cascade lives in the ORM
model file, which is not under src/). -/
def delete_milestone (db : Db) (u : User) (mid : Nat) :
    Db × Except HttpError Unit :=
  match db.milestones.find? (fun x => x.milestone_id == mid) with
  | none => (db, .error ⟨404, "Milestone not found"⟩)
  | some milestone =>
    if milestone.created_by != u.user_id then
      (db, .error ⟨403, "Only the creating lecturer can delete this milestone"⟩)
    else
      ({ db with
          milestones := db.milestones.filter (fun x => !(x.milestone_id == mid))
          checkpoints := db.checkpoints.filter (fun c => !(c.milestone_id == mid)) },
       .ok ())

structure CheckpointCreate where
  milestone_id : Nat
  team_id : Nat
  title : String
  status : Option String
deriving DecidableEq, Repr

structure CheckpointUpdate where
  title : Option String
  status : Option String
deriving DecidableEq, Repr

/-- POST /milestones/id/checkpoints (create_checkpoint).  The ORM
relationship `milestone.academic_class` presumes the class row exists (FK
integrity); a missing row would raise inside the source endpoint, which
surfaces as a 500. -/
def create_checkpoint (db : Db) (u : User) (milestone_id : Nat)
    (p : CheckpointCreate) (newId : Nat) : Db × Except HttpError Checkpoint :=
  if p.milestone_id != milestone_id then
    (db, .error ⟨400, "Milestone ID mismatch"⟩)
  else
    match db.milestones.find? (fun x => x.milestone_id == milestone_id) with
    | none => (db, .error ⟨404, "Milestone not found"⟩)
    | some milestone =>
      match db.classes.find? (fun c => c.class_id == milestone.class_id) with
      | none => (db, .error ⟨500, "Internal Server Error"⟩)
      | some academic_class =>
        if academic_class.lecturer_id != u.user_id then
          (db, .error ⟨403, "Only the class lecturer can create checkpoints"⟩)
        else
          match db.teams.find? (fun t => t.team_id == p.team_id) with
          | none => (db, .error ⟨404, "Team not found"⟩)
          | some team =>
            if team.class_id != milestone.class_id then
              (db, .error ⟨400, "Team does not belong to this class"⟩)
            else
              let new_checkpoint : Checkpoint :=
                { checkpoint_id := newId
                  milestone_id := milestone_id
                  team_id := p.team_id
                  title := p.title
                  status := pyOrStr p.status "pending" }
              ({ db with checkpoints := db.checkpoints ++ [new_checkpoint] },
               .ok new_checkpoint)

/-- GET /milestones/id/checkpoints (list_checkpoints): optional team filter
(Python truthiness: a team_id of 0 is falsy and applies no filter), ORDER BY
checkpoint_id. -/
def list_checkpoints (db : Db) (milestone_id : Nat) (team_id : Option Nat) :
    Except HttpError (List Checkpoint) :=
  match db.milestones.find? (fun x => x.milestone_id == milestone_id) with
  | none => .error ⟨404, "Milestone not found"⟩
  | some _ =>
    let base := db.checkpoints.filter (fun c => c.milestone_id == milestone_id)
    let filtered :=
      if natOptTruthy team_id then
        base.filter (fun c => c.team_id == team_id.getD 0)
      else base
    .ok (sortLe (fun a b => a.checkpoint_id ≤ b.checkpoint_id) filtered)

/-- Boolean success test of an endpoint outcome. -/
def resultOk {α : Type} : Except HttpError α → Bool
  | .ok _ => true
  | .error _ => false

/-! Concrete fixtures used by witnesses and counterexamples. -/

def meet1 : Meeting :=
  { meeting_id := 1, team_id := 1, title := "Standup", start_time := some 1000,
    end_time := some 2000, link_url := some "room-abc", organizer_id := 10,
    created_at := 0 }

/-- Team 1 with leader 10 (organizer of meet1) and plain members 11 and 12. -/
def dbM : Db :=
  { teams := [⟨1, 1⟩]
    teamMembers := [⟨1, 10, "LEADER"⟩, ⟨1, 11, "MEMBER"⟩, ⟨1, 12, "MEMBER"⟩]
    meetings := [meet1]
    notifications := []
    classes := []
    milestones := []
    checkpoints := [] }

def mile1 : Milestone :=
  { milestone_id := 1, class_id := 1, title := "M1", description := none,
    due_date := 5000, weight := 1, created_by := 7 }

/-- Class 1 taught by lecturer 7, with milestone mile1 created by 7, team 2
in class 1 and team 3 in class 9. -/
def dbL : Db :=
  { teams := [⟨2, 1⟩, ⟨3, 9⟩]
    teamMembers := []
    meetings := []
    notifications := []
    classes := [⟨1, 7⟩]
    milestones := [mile1]
    checkpoints := [] }

/-- Claim C10: a class_id of 0 on milestone listing and a team_id of 0 on
checkpoint listing are falsy and ignored, so both listings behave exactly as
if no filter had been supplied. -/
theorem zero_id_filters_ignored :
    ∀ (db : Db) (skip limit : Nat) (mid : Nat),
      list_milestones db (some 0) skip limit = list_milestones db none skip limit ∧
      list_checkpoints db mid (some 0) = list_checkpoints db mid none := by
  intro db skip limit mid
  exact ⟨rfl, rfl⟩

/-- Claim C2: milestone creation does not persist the supplied weight — the
endpoint constructs the Milestone row without the weight field, so two
creations identical except for the supplied weight (0.2 versus 0.7) give
identical results and identical stored rows. -/
theorem create_milestone_drops_weight :
    create_milestone dbL ⟨7, 4⟩ ⟨1, "M2", none, 5000, 1/5⟩ 0 2
      = create_milestone dbL ⟨7, 4⟩ ⟨1, "M2", none, 5000, 7/10⟩ 0 2 := by
  rfl

/-- Claim C1 as stated is false: a caller with the admin role (role_id 1)
who is not a member of the meeting's team is rejected with 403 by both
update and cancel, because the team-membership check runs before the
privileged-role check. -/
theorem admin_nonmember_meeting_mutation_forbidden :
    update_meeting dbM ⟨99, 1⟩ 1 ⟨none, none, none, none⟩
        = (dbM, .error ⟨403, "You are not a member of this team"⟩) ∧
      cancel_meeting dbM ⟨99, 1⟩ 1
        = (dbM, .error ⟨403, "You are not a member of this team"⟩) := by
  exact ⟨rfl, rfl⟩

/-- Claim C1 (amended): for every existing meeting, a caller holding an
elevated global role (role_id 1 or 4) who is a member of the meeting's team
is authorized to update and to cancel the meeting — neither operation fails
with Forbidden (403) — regardless of whether the caller holds the LEADER
role on the team or is the organizer. -/
theorem privileged_member_meeting_mutation_not_forbidden
    (db : Db) (u : User) (mid : Nat) (p : MeetingUpdate)
    (m : Meeting) (tm : TeamMember)
    (hm : db.meetings.find? (fun x => x.meeting_id == mid) = some m)
    (htm : db.teamMembers.find?
      (fun x => x.team_id == m.team_id && x.user_id == u.user_id) = some tm)
    (hrole : u.role_id = 1 ∨ u.role_id = 4) :
    (∀ e, (update_meeting db u mid p).2 = .error e → e.status ≠ 403) ∧
      resultOk (cancel_meeting db u mid).2 = true := by
  have hpriv : (u.role_id == 1 || u.role_id == 4) = true := by
    rcases hrole with h | h <;> simp [h]
  constructor
  · intro e he
    simp only [update_meeting, hm, require_team_member, htm, hpriv] at he
    simp only [Bool.true_or, Bool.not_true, Bool.false_eq_true, if_false] at he
    rcases hs : (applyMeetingUpdate m p).start_time with _ | s <;>
      rcases hend : (applyMeetingUpdate m p).end_time with _ | en <;>
      simp only [hs, hend] at he
    · exact absurd he (by simp)
    · exact absurd he (by simp)
    · exact absurd he (by simp)
    · by_cases hle : en ≤ s
      · simp only [hle, if_true] at he
        cases he
        decide
      · simp only [hle, if_false] at he
        exact absurd he (by simp)
  · simp only [cancel_meeting, hm, require_team_member, htm, hpriv]
    simp [resultOk]

/-- Witness for the amended C1: user 12 (role 4, plain member, not the
organizer) is not rejected with 403 from update and cancels successfully. -/
theorem privileged_member_meeting_mutation_not_forbidden_witness :
    (∀ e, (update_meeting dbM ⟨12, 4⟩ 1 ⟨none, none, none, none⟩).2 = .error e →
        e.status ≠ 403) ∧
      resultOk (cancel_meeting dbM ⟨12, 4⟩ 1).2 = true :=
  privileged_member_meeting_mutation_not_forbidden dbM ⟨12, 4⟩ 1
    ⟨none, none, none, none⟩ meet1 ⟨1, 12, "MEMBER"⟩ rfl rfl (Or.inr rfl)

/-- Claim C3: for every meeting update by an authorized caller where the
merge of the supplied partial changes onto the stored row leaves both times
set with end_time less than or equal to start_time, the endpoint fails with
the 400 validation error and the database is returned unchanged (the error
is raised before the commit point). -/
theorem update_meeting_merged_invalid_rejected
    (db : Db) (u : User) (mid : Nat) (p : MeetingUpdate)
    (m : Meeting) (tm : TeamMember) (s en : Int)
    (hm : db.meetings.find? (fun x => x.meeting_id == mid) = some m)
    (htm : db.teamMembers.find?
      (fun x => x.team_id == m.team_id && x.user_id == u.user_id) = some tm)
    (hauth : u.role_id = 1 ∨ u.role_id = 4 ∨ tm.role = "LEADER" ∨
      m.organizer_id = u.user_id)
    (hs : (applyMeetingUpdate m p).start_time = some s)
    (hend : (applyMeetingUpdate m p).end_time = some en)
    (hle : en ≤ s) :
    update_meeting db u mid p
      = (db, .error ⟨400, "end_time must be greater than start_time"⟩) := by
  have hcond : ((u.role_id == 1 || u.role_id == 4) || tm.role == "LEADER" ||
      m.organizer_id == u.user_id) = true := by
    rcases hauth with h | h | h | h <;> simp [h]
  simp only [update_meeting, hm, require_team_member, htm, hcond]
  simp only [Bool.not_true, Bool.false_eq_true, if_false]
  simp only [hs, hend, hle, if_true]

/-- Witness for C3: the organizer merges end_time 500 onto the stored start
time 1000 and is rejected with 400, database unchanged. -/
theorem update_meeting_merged_invalid_rejected_witness :
    update_meeting dbM ⟨10, 5⟩ 1 ⟨none, none, some 500, none⟩
      = (dbM, .error ⟨400, "end_time must be greater than start_time"⟩) :=
  update_meeting_merged_invalid_rejected dbM ⟨10, 5⟩ 1
    ⟨none, none, some 500, none⟩ meet1 ⟨1, 10, "LEADER"⟩ 1000 500
    rfl rfl (Or.inr (Or.inr (Or.inl rfl))) rfl rfl (by decide)

/-- Join of a meeting whose room identifier is truthy returns that
identifier without writing. -/
theorem join_noop_of_truthy
    (db : Db) (u : User) (mid : Nat) (rand : List Nat)
    (m : Meeting) (tm : TeamMember)
    (hm : db.meetings.find? (fun x => x.meeting_id == mid) = some m)
    (htm : db.teamMembers.find?
      (fun x => x.team_id == m.team_id && x.user_id == u.user_id) = some tm)
    (hlink : strTruthy m.link_url = true) :
    join_meeting db u mid rand = (db, .ok ⟨mid, m.team_id, m.link_url⟩) := by
  simp only [join_meeting, hm, require_team_member, htm, hlink]
  simp

/-- Claim C5: join is idempotent.  For a meeting whose room identifier is
already set (truthy), a member's join returns that identifier and performs
no write, and a second join in succession returns the same identifier and
again performs no write. -/
theorem join_meeting_idempotent
    (db : Db) (u : User) (mid : Nat) (rand rand2 : List Nat)
    (m : Meeting) (tm : TeamMember)
    (hm : db.meetings.find? (fun x => x.meeting_id == mid) = some m)
    (htm : db.teamMembers.find?
      (fun x => x.team_id == m.team_id && x.user_id == u.user_id) = some tm)
    (hlink : strTruthy m.link_url = true) :
    join_meeting db u mid rand = (db, .ok ⟨mid, m.team_id, m.link_url⟩) ∧
      join_meeting (join_meeting db u mid rand).1 u mid rand2
        = (db, .ok ⟨mid, m.team_id, m.link_url⟩) := by
  have h1 := join_noop_of_truthy db u mid rand m tm hm htm hlink
  have h2 := join_noop_of_truthy db u mid rand2 m tm hm htm hlink
  refine ⟨h1, ?_⟩
  rw [h1]
  exact h2

/-- Witness for C5: member 11 joins meet1 (room already "room-abc") twice;
both calls return the stored identifier and leave the database unchanged. -/
theorem join_meeting_idempotent_witness :
    join_meeting dbM ⟨11, 5⟩ 1 [1] = (dbM, .ok ⟨1, 1, some "room-abc"⟩) ∧
      join_meeting (join_meeting dbM ⟨11, 5⟩ 1 [1]).1 ⟨11, 5⟩ 1 [2]
        = (dbM, .ok ⟨1, 1, some "room-abc"⟩) :=
  join_meeting_idempotent dbM ⟨11, 5⟩ 1 [1] [2] meet1 ⟨1, 11, "MEMBER"⟩
    rfl rfl rfl

/-- Claim C6: milestone update and delete are creator-only.  For every
existing milestone, a caller whose user_id differs from the creator —
whatever their global role, including 1 and 4 — receives the 403 error with
the database unchanged, and any successful update or delete implies the
caller is the creator. -/
theorem milestone_mutation_creator_only
    (db : Db) (u : User) (mid : Nat) (p : MilestoneUpdate) (now : Int)
    (m : Milestone)
    (hm : db.milestones.find? (fun x => x.milestone_id == mid) = some m)
    (hne : m.created_by ≠ u.user_id) :
    update_milestone db u mid p now
        = (db, .error ⟨403, "Only the creating lecturer can update this milestone"⟩) ∧
      delete_milestone db u mid
        = (db, .error ⟨403, "Only the creating lecturer can delete this milestone"⟩) ∧
      (∀ (u2 : User) (p2 : MilestoneUpdate) (now2 : Int),
        resultOk (update_milestone db u2 mid p2 now2).2 = true →
          m.created_by = u2.user_id) ∧
      (∀ u2 : User,
        resultOk (delete_milestone db u2 mid).2 = true →
          m.created_by = u2.user_id) := by
  have hb : (m.created_by != u.user_id) = true := by simp [hne]
  refine ⟨?_, ?_, ?_, ?_⟩
  · simp only [update_milestone, hm, hb, if_true]
  · simp only [delete_milestone, hm, hb, if_true]
  · intro u2 p2 now2 hok
    by_cases h : m.created_by = u2.user_id
    · exact h
    · exfalso
      have hb2 : (m.created_by != u2.user_id) = true := by simp [h]
      simp only [update_milestone, hm, hb2, if_true, resultOk] at hok
      exact Bool.false_ne_true hok
  · intro u2 hok
    by_cases h : m.created_by = u2.user_id
    · exact h
    · exfalso
      have hb2 : (m.created_by != u2.user_id) = true := by simp [h]
      simp only [delete_milestone, hm, hb2, if_true, resultOk] at hok
      exact Bool.false_ne_true hok

/-- Witness for C6: user 8 with the lecturer role (role_id 4) is not the
creator of mile1 (created by 7) and is rejected from update and delete. -/
theorem milestone_mutation_creator_only_witness :
    update_milestone dbL ⟨8, 4⟩ 1 ⟨none, none, none, none⟩ 0
        = (dbL, .error ⟨403, "Only the creating lecturer can update this milestone"⟩) ∧
      delete_milestone dbL ⟨8, 4⟩ 1
        = (dbL, .error ⟨403, "Only the creating lecturer can delete this milestone"⟩) ∧
      (∀ (u2 : User) (p2 : MilestoneUpdate) (now2 : Int),
        resultOk (update_milestone dbL u2 1 p2 now2).2 = true →
          mile1.created_by = u2.user_id) ∧
      (∀ u2 : User,
        resultOk (delete_milestone dbL u2 1).2 = true →
          mile1.created_by = u2.user_id) :=
  milestone_mutation_creator_only dbL ⟨8, 4⟩ 1 ⟨none, none, none, none⟩ 0
    mile1 rfl (by decide)

/-- Claim C7: checkpoint creation by the class lecturer under an existing
milestone rejects with the 400 error — creating nothing — any existing team
whose class differs from the milestone's class, and when the team does
belong to the class and no status is supplied the stored checkpoint's
status is "pending". -/
theorem create_checkpoint_class_check_and_default_status
    (db : Db) (u : User) (milestone_id newId : Nat) (p : CheckpointCreate)
    (m : Milestone) (c : AcademicClass) (t : Team)
    (hp : p.milestone_id = milestone_id)
    (hm : db.milestones.find? (fun x => x.milestone_id == milestone_id) = some m)
    (hc : db.classes.find? (fun x => x.class_id == m.class_id) = some c)
    (hl : c.lecturer_id = u.user_id)
    (ht : db.teams.find? (fun x => x.team_id == p.team_id) = some t) :
    (t.class_id ≠ m.class_id →
      create_checkpoint db u milestone_id p newId
        = (db, .error ⟨400, "Team does not belong to this class"⟩)) ∧
      (t.class_id = m.class_id → p.status = none →
        create_checkpoint db u milestone_id p newId
          = ({ db with checkpoints :=
                db.checkpoints ++ [⟨newId, milestone_id, p.team_id, p.title, "pending"⟩] },
             .ok ⟨newId, milestone_id, p.team_id, p.title, "pending"⟩)) := by
  have hpb : (p.milestone_id != milestone_id) = false := by simp [hp]
  have hlb : (c.lecturer_id != u.user_id) = false := by simp [hl]
  constructor
  · intro hne
    have htb : (t.class_id != m.class_id) = true := by simp [hne]
    simp only [create_checkpoint, hpb, hm, hc, hlb, ht, htb, if_true,
      Bool.false_eq_true, if_false]
  · intro heq hst
    have htb : (t.class_id != m.class_id) = false := by simp [heq]
    simp only [create_checkpoint, hpb, hm, hc, hlb, ht, htb,
      Bool.false_eq_true, if_false, hst, pyOrStr]

/-- Witness for C7: lecturer 7 creates a checkpoint under mile1 (class 1);
team 3 lives in class 9 and is rejected with 400, while team 2 (class 1)
with no status yields a stored checkpoint with status "pending". -/
theorem create_checkpoint_class_check_and_default_status_witness :
    (create_checkpoint dbL ⟨7, 4⟩ 1 ⟨1, 3, "CP", none⟩ 5
        = (dbL, .error ⟨400, "Team does not belong to this class"⟩)) ∧
      (create_checkpoint dbL ⟨7, 4⟩ 1 ⟨1, 2, "CP", none⟩ 5
        = ({ dbL with checkpoints := dbL.checkpoints ++ [⟨5, 1, 2, "CP", "pending"⟩] },
           .ok ⟨5, 1, 2, "CP", "pending"⟩)) :=
  ⟨(create_checkpoint_class_check_and_default_status dbL ⟨7, 4⟩ 1 5
      ⟨1, 3, "CP", none⟩ mile1 ⟨1, 7⟩ ⟨3, 9⟩ rfl rfl rfl rfl rfl).1 (by decide),
   (create_checkpoint_class_check_and_default_status dbL ⟨7, 4⟩ 1 5
      ⟨1, 2, "CP", none⟩ mile1 ⟨1, 7⟩ ⟨2, 1⟩ rfl rfl rfl rfl rfl).2 rfl rfl⟩

/-- Claim C8: milestone creation by the class lecturer and milestone update
by the creator that supplies a due date reject any due date less than or
equal to the current time with the 400 error (database unchanged), and
accept any strictly future due date (the operation succeeds). -/
theorem milestone_due_date_validation
    (db : Db) (u : User) (p : MilestoneCreate) (now : Int) (newId : Nat)
    (c : AcademicClass)
    (hc : db.classes.find? (fun x => x.class_id == p.class_id) = some c)
    (hl : c.lecturer_id = u.user_id)
    (db2 : Db) (u2 : User) (mid : Nat) (p2 : MilestoneUpdate) (now2 d : Int)
    (m : Milestone)
    (hm : db2.milestones.find? (fun x => x.milestone_id == mid) = some m)
    (hcr : m.created_by = u2.user_id)
    (hd : p2.due_date = some d) :
    (p.due_date ≤ now →
      create_milestone db u p now newId
        = (db, .error ⟨400, "Due date must be in the future"⟩)) ∧
      (now < p.due_date →
        resultOk (create_milestone db u p now newId).2 = true) ∧
      (d ≤ now2 →
        update_milestone db2 u2 mid p2 now2
          = (db2, .error ⟨400, "Due date must be in the future"⟩)) ∧
      (now2 < d →
        resultOk (update_milestone db2 u2 mid p2 now2).2 = true) := by
  have hlb : (c.lecturer_id != u.user_id) = false := by simp [hl]
  have hcrb : (m.created_by != u2.user_id) = false := by simp [hcr]
  refine ⟨?_, ?_, ?_, ?_⟩
  · intro hle
    simp only [create_milestone, hc, hlb, Bool.false_eq_true, if_false, hle,
      if_true]
  · intro hgt
    have : ¬ p.due_date ≤ now := not_le.mpr hgt
    simp only [create_milestone, hc, hlb, Bool.false_eq_true, if_false, this,
      resultOk]
  · intro hle
    simp only [update_milestone, hm, hcrb, Bool.false_eq_true, if_false, hd,
      hle, if_true]
  · intro hgt
    have : ¬ d ≤ now2 := not_le.mpr hgt
    simp only [update_milestone, hm, hcrb, Bool.false_eq_true, if_false, hd,
      this, resultOk]

/-- Witness for C8: lecturer 7 creating in class 1 and updating mile1 at
current time 6000 — a due date of 6000 is rejected, 9000 is accepted. -/
theorem milestone_due_date_validation_witness :
    ((6000 : Int) ≤ 6000 →
      create_milestone dbL ⟨7, 4⟩ ⟨1, "M3", none, 6000, 1⟩ 6000 2
        = (dbL, .error ⟨400, "Due date must be in the future"⟩)) ∧
      ((6000 : Int) < 6000 →
        resultOk (create_milestone dbL ⟨7, 4⟩ ⟨1, "M3", none, 6000, 1⟩ 6000 2).2 = true) ∧
      ((9000 : Int) ≤ 6000 →
        update_milestone dbL ⟨7, 4⟩ 1 ⟨none, none, some 9000, none⟩ 6000
          = (dbL, .error ⟨400, "Due date must be in the future"⟩)) ∧
      ((6000 : Int) < 9000 →
        resultOk (update_milestone dbL ⟨7, 4⟩ 1 ⟨none, none, some 9000, none⟩ 6000).2 = true) :=
  milestone_due_date_validation dbL ⟨7, 4⟩ ⟨1, "M3", none, 6000, 1⟩ 6000 2
    ⟨1, 7⟩ rfl rfl dbL ⟨7, 4⟩ 1 ⟨none, none, some 9000, none⟩ 6000 9000
    mile1 rfl rfl rfl

/-- Claim C4: on every successful meeting creation, if start_time minus 15
minutes is strictly after the current time then exactly one notification
referencing the new meeting is created per existing team member row — in
particular one for the organizer — and if the reminder time has already
passed no notification is created. -/
theorem create_meeting_reminder_notifications
    (db : Db) (u : User) (p : MeetingCreate) (now : Int) (rand : List Nat)
    (newId : Nat) (t : Team) (tm : TeamMember)
    (ht : db.teams.find? (fun x => x.team_id == p.team_id) = some t)
    (htm : db.teamMembers.find?
      (fun x => x.team_id == p.team_id && x.user_id == u.user_id) = some tm) :
    resultOk (create_meeting db u p now rand newId).2 = true ∧
      (p.start_time - 15 * 60 > now →
        ((create_meeting db u p now rand newId).1.notifications.drop
            db.notifications.length).map (fun n => n.user_id)
          = (db.teamMembers.filter (fun x => x.team_id == p.team_id)).map
              (fun x => x.user_id) ∧
        (∀ n ∈ (create_meeting db u p now rand newId).1.notifications.drop
            db.notifications.length,
          n.related_entity_type = "meeting" ∧ n.related_entity_id = newId) ∧
        u.user_id ∈ ((create_meeting db u p now rand newId).1.notifications.drop
            db.notifications.length).map (fun n => n.user_id)) ∧
      (¬ p.start_time - 15 * 60 > now →
        (create_meeting db u p now rand newId).1.notifications
          = db.notifications) := by
  refine ⟨?_, ?_, ?_⟩
  · simp only [create_meeting, require_team_exists, ht, require_team_member, htm]
    rfl
  · intro hgt
    have hnot : (create_meeting db u p now rand newId).1.notifications
        = db.notifications ++
          (db.teamMembers.filter (fun x => x.team_id == p.team_id)).map
            (fun m =>
              { user_id := m.user_id
                title := "Meeting reminder"
                message := "Meeting " ++ p.title ++ " starts at " ++ toString p.start_time
                notification_type := "info"
                related_entity_type := "meeting"
                related_entity_id := newId }) := by
      simp only [create_meeting, require_team_exists, ht, require_team_member,
        htm, if_pos hgt]
    rw [hnot, List.drop_left]
    refine ⟨?_, ?_, ?_⟩
    · rw [List.map_map]
      rfl
    · intro n hn
      rw [List.mem_map] at hn
      obtain ⟨a, _, rfl⟩ := hn
      exact ⟨rfl, rfl⟩
    · have hmemtm := List.mem_of_find?_eq_some htm
      have hpred := List.find?_some htm
      rw [Bool.and_eq_true, beq_iff_eq, beq_iff_eq] at hpred
      rw [List.map_map]
      refine List.mem_map.mpr ⟨tm, List.mem_filter.mpr ⟨hmemtm, ?_⟩, ?_⟩
      · simp [hpred.1]
      · simpa using hpred.2
  · intro hngt
    have hnot : (create_meeting db u p now rand newId).1.notifications
        = db.notifications ++ [] := by
      simp only [create_meeting, require_team_exists, ht, require_team_member,
        htm, if_neg hngt]
    simpa using hnot

/-- Witness for C4: user 10 schedules a meeting at time 10000 with now 0;
the reminder (9100) is in the future, so the theorem yields exactly one
notification per member row of team 1 (three rows, among them the
organizer). -/
theorem create_meeting_reminder_notifications_witness :
    resultOk (create_meeting dbM ⟨10, 5⟩ ⟨1, "Sync", 10000, 20000, none⟩ 0 [1] 2).2 = true ∧
      ((10000 : Int) - 15 * 60 > 0 →
        ((create_meeting dbM ⟨10, 5⟩ ⟨1, "Sync", 10000, 20000, none⟩ 0 [1] 2).1.notifications.drop
            dbM.notifications.length).map (fun n => n.user_id)
          = (dbM.teamMembers.filter (fun x => x.team_id == 1)).map
              (fun x => x.user_id) ∧
        (∀ n ∈ (create_meeting dbM ⟨10, 5⟩ ⟨1, "Sync", 10000, 20000, none⟩ 0 [1] 2).1.notifications.drop
            dbM.notifications.length,
          n.related_entity_type = "meeting" ∧ n.related_entity_id = 2) ∧
        (10 : Nat) ∈ ((create_meeting dbM ⟨10, 5⟩ ⟨1, "Sync", 10000, 20000, none⟩ 0 [1] 2).1.notifications.drop
            dbM.notifications.length).map (fun n => n.user_id)) ∧
      (¬ (10000 : Int) - 15 * 60 > 0 →
        (create_meeting dbM ⟨10, 5⟩ ⟨1, "Sync", 10000, 20000, none⟩ 0 [1] 2).1.notifications
          = dbM.notifications) :=
  create_meeting_reminder_notifications dbM ⟨10, 5⟩ ⟨1, "Sync", 10000, 20000, none⟩
    0 [1] 2 ⟨1, 1⟩ ⟨1, 10, "LEADER"⟩ rfl rfl

/-- find? on a list extended with one element that matches, when nothing in
the prefix matches. -/
theorem find?_append_last {α : Type} (p : α → Bool) (l : List α) (x : α)
    (h : ∀ a ∈ l, p a = false) (hx : p x = true) :
    (l ++ [x]).find? p = some x := by
  induction l with
  | nil =>
    simp only [List.nil_append]
    exact List.find?_cons_of_pos _ hx
  | cons a as ih =>
    have ha := h a (List.mem_cons_self a as)
    simp only [List.cons_append]
    rw [List.find?_cons_of_neg _ (by simp [ha])]
    exact ih (fun b hb => h b (List.mem_cons_of_mem a hb))

/-- The URL-safe token of a non-empty byte draw is a non-empty string. -/
theorem gen_peer_room_id_ne_empty (rand : List Nat) (h : rand ≠ []) :
    gen_peer_room_id rand ≠ "" := by
  intro hq
  rw [String.ext_iff] at hq
  apply h
  cases rand with
  | nil => rfl
  | cons a as =>
    cases as with
    | nil => simp [gen_peer_room_id, b64urlEncode] at hq
    | cons b bs =>
      cases bs with
      | nil => simp [gen_peer_room_id, b64urlEncode] at hq
      | cons c cs => simp [gen_peer_room_id, b64urlEncode] at hq

/-- Python `a or b` never returns the empty string when `b` is non-empty. -/
theorem pyOrStr_ne_empty (a : Option String) (b : String) (hb : b ≠ "") :
    pyOrStr a b ≠ "" := by
  cases a with
  | none => simpa [pyOrStr] using hb
  | some s =>
    by_cases hs : s = ""
    · simpa [pyOrStr, hs] using hb
    · simp [pyOrStr, hs]

/-- Claim C9: every meeting made by the create endpoint stores a non-empty
room identifier (the supplied link if truthy, otherwise the generated
token), so the lazy allocation branch of join never fires for it: any
member joining the fresh meeting gets that identifier back with no write. -/
theorem created_meeting_room_always_set
    (db : Db) (u : User) (p : MeetingCreate) (now : Int) (rand : List Nat)
    (newId : Nat) (t : Team) (tm : TeamMember)
    (ht : db.teams.find? (fun x => x.team_id == p.team_id) = some t)
    (htm : db.teamMembers.find?
      (fun x => x.team_id == p.team_id && x.user_id == u.user_id) = some tm)
    (hrand : rand ≠ [])
    (hfresh : ∀ m ∈ db.meetings, (m.meeting_id == newId) = false) :
    ∃ link : String,
      link ≠ "" ∧
      (create_meeting db u p now rand newId).1.meetings
        = db.meetings ++ [⟨newId, p.team_id, p.title, some p.start_time,
            some p.end_time, some link, u.user_id, now⟩] ∧
      (∀ (u2 : User) (tm2 : TeamMember) (rand2 : List Nat),
        (create_meeting db u p now rand newId).1.teamMembers.find?
            (fun x => x.team_id == p.team_id && x.user_id == u2.user_id)
          = some tm2 →
        join_meeting (create_meeting db u p now rand newId).1 u2 newId rand2
          = ((create_meeting db u p now rand newId).1,
             .ok ⟨newId, p.team_id, some link⟩)) := by
  have hlink := pyOrStr_ne_empty p.meeting_link (gen_peer_room_id rand)
    (gen_peer_room_id_ne_empty rand hrand)
  have hmeet : (create_meeting db u p now rand newId).1.meetings
      = db.meetings ++ [⟨newId, p.team_id, p.title, some p.start_time,
          some p.end_time, some (pyOrStr p.meeting_link (gen_peer_room_id rand)),
          u.user_id, now⟩] := by
    simp only [create_meeting, require_team_exists, ht, require_team_member, htm]
  have hteam : (create_meeting db u p now rand newId).1.teamMembers
      = db.teamMembers := by
    simp only [create_meeting, require_team_exists, ht, require_team_member, htm]
  refine ⟨pyOrStr p.meeting_link (gen_peer_room_id rand), hlink, hmeet, ?_⟩
  intro u2 tm2 rand2 htm2
  have hfind : (create_meeting db u p now rand newId).1.meetings.find?
      (fun x => x.meeting_id == newId)
      = some ⟨newId, p.team_id, p.title, some p.start_time, some p.end_time,
          some (pyOrStr p.meeting_link (gen_peer_room_id rand)), u.user_id, now⟩ := by
    rw [hmeet]
    exact find?_append_last _ _ _ hfresh (by simp)
  have htruthy : strTruthy (some (pyOrStr p.meeting_link (gen_peer_room_id rand)))
      = true := by
    simp [strTruthy, hlink]
  simp only [join_meeting, hfind, require_team_member, htm2, htruthy,
    Bool.not_true, Bool.false_eq_true, if_false]

/-- Witness for C9: user 11 creates a meeting on team 1 with no supplied
link; the stored room identifier is non-empty and a member join of the new
meeting returns it without writing. -/
theorem created_meeting_room_always_set_witness :
    ∃ link : String,
      link ≠ "" ∧
      (create_meeting dbM ⟨11, 5⟩ ⟨1, "Demo", 100, 200, none⟩ 0 [7, 7, 7, 7, 7, 7, 7, 7, 7, 7] 2).1.meetings
        = dbM.meetings ++ [⟨2, 1, "Demo", some 100, some 200, some link, 11, 0⟩] ∧
      (∀ (u2 : User) (tm2 : TeamMember) (rand2 : List Nat),
        (create_meeting dbM ⟨11, 5⟩ ⟨1, "Demo", 100, 200, none⟩ 0 [7, 7, 7, 7, 7, 7, 7, 7, 7, 7] 2).1.teamMembers.find?
            (fun x => x.team_id == 1 && x.user_id == u2.user_id) = some tm2 →
        join_meeting (create_meeting dbM ⟨11, 5⟩ ⟨1, "Demo", 100, 200, none⟩ 0 [7, 7, 7, 7, 7, 7, 7, 7, 7, 7] 2).1 u2 2 rand2
          = ((create_meeting dbM ⟨11, 5⟩ ⟨1, "Demo", 100, 200, none⟩ 0 [7, 7, 7, 7, 7, 7, 7, 7, 7, 7] 2).1,
             .ok ⟨2, 1, some link⟩)) :=
  created_meeting_room_always_set dbM ⟨11, 5⟩ ⟨1, "Demo", 100, 200, none⟩ 0
    [7, 7, 7, 7, 7, 7, 7, 7, 7, 7] 2 ⟨1, 1⟩ ⟨1, 11, "MEMBER"⟩ rfl rfl
    (by decide) (by decide)
